import Mathlib

/-!
Shallow embedding of the Young-wealth admin backend
(`src/server/routes/admin.js`, `src/server/models/User.js`).

Conventions of the embedding:
* Request-body fields arrive through the multer multipart parsing, so each
  field is a string when present; we model a field as `Option String`
  (`none` = the JS `undefined`).
* JS `Date` timestamps are modelled as `Nat` clock values passed in
  explicitly (`now`), and generated ids (`uuidv4`) as explicit `freshId`
  arguments.
* `bcrypt.hash` / `bcrypt.compare` are external collaborators and are
  modelled as explicit function arguments (`hashFn`, `cmp`).
* A thrown error that a route converts to a response is modelled by the
  corresponding response constructor; a store operation that throws
  (duplicate email) returns `none` together with the unchanged store.
* `Course.js` is not part of the sources; the Course store operations are
  modelled from the spec (each such definition says so in its doc comment).
-/

/-- JS whitespace characters relevant to `String.prototype.trim` for the
ASCII inputs of this system. -/
def isJsSpace (c : Char) : Bool :=
  c == ' ' || c == '\t' || c == '\n' || c == '\r' || c == '\x0b' || c == '\x0c'

/-- Model of JS `s.trim()`: strip leading and trailing whitespace. -/
def jsTrim (s : String) : String :=
  String.mk (((s.data.dropWhile isJsSpace).reverse.dropWhile isJsSpace).reverse)

/-- Model of JS `s.toLowerCase()` (ASCII range, which covers every string
this system compares). -/
def jsToLower (s : String) : String :=
  String.mk (s.data.map Char.toLower)

/-- Numeric value of a list of decimal digit characters. -/
def digitsToNat (l : List Char) : Nat :=
  l.foldl (fun a c => 10 * a + (c.toNat - '0'.toNat)) 0

/-- Model of JS `parseFloat` on a string: skip leading whitespace, optional
sign, then the longest `digits [. digits]` numeric prefix; `none` models
`NaN`. (Exponent and `Infinity` forms, which this system never receives
from its own clients, are not modelled.) -/
def jsParseFloatChars (l : List Char) : Option ℚ :=
  let l1 := l.dropWhile isJsSpace
  let sgn : ℚ := match l1 with
    | '-' :: _ => -1
    | _ => 1
  let l2 := match l1 with
    | '-' :: rest => rest
    | '+' :: rest => rest
    | _ => l1
  let intPart := l2.takeWhile Char.isDigit
  let rest2 := l2.dropWhile Char.isDigit
  let fracPart := match rest2 with
    | '.' :: rest => rest.takeWhile Char.isDigit
    | _ => []
  if intPart = [] ∧ fracPart = [] then none
  else some (sgn * ((digitsToNat intPart : ℚ) +
    (digitsToNat fracPart : ℚ) / (10 : ℚ) ^ fracPart.length))

/-- Model of JS `parseFloat` applied to a possibly-undefined body field:
`parseFloat(undefined)` is `NaN`. -/
def jsParseFloat : Option String → Option ℚ
  | none => none
  | some s => jsParseFloatChars s.data

/-- Model of JS `parseInt(s)` (radix 10): skip leading whitespace, optional
sign, longest decimal-digit prefix; `none` models `NaN`. -/
def jsParseIntChars (l : List Char) : Option ℤ :=
  let l1 := l.dropWhile isJsSpace
  let sgn : ℤ := match l1 with
    | '-' :: _ => -1
    | _ => 1
  let l2 := match l1 with
    | '-' :: rest => rest
    | '+' :: rest => rest
    | _ => l1
  let ds := l2.takeWhile Char.isDigit
  if ds = [] then none else some (sgn * (digitsToNat ds : ℤ))

/-- Model of JS `parseInt` applied to a possibly-undefined body field. -/
def jsParseInt : Option String → Option ℤ
  | none => none
  | some s => jsParseIntChars s.data

/-- JS truthiness of a request-body field: `undefined` and the empty string
are falsy, every other string is truthy. -/
def truthy : Option String → Bool
  | none => false
  | some s => s != ""

/-- User record, from the `User` class of `src/server/models/User.js`. -/
structure User where
  id : String
  fullName : String
  email : String
  password : String
  role : String
  schoolType : Option String
  isActive : Bool
  createdAt : Nat
  updatedAt : Nat
  deriving Repr, DecidableEq

/-- The bcrypt hash string shared by the three seeded users. -/
def seedHash : String :=
  "$2a$10$92IXUNpkjO0rOQ5byMi.Ye4oKoEa3Ro9llC/.og/at2.uheWG/igi"

/-- Seeded user `John Doe` (id `1`). -/
def johnUser : User :=
  { id := "1", fullName := "John Doe", email := "john@student.com",
    password := seedHash, role := "school-student",
    schoolType := some "government", isActive := true,
    createdAt := 0, updatedAt := 0 }

/-- Seeded user `Jane Smith` (id `2`). -/
def janeUser : User :=
  { id := "2", fullName := "Jane Smith", email := "jane@college.com",
    password := seedHash, role := "college-student",
    schoolType := none, isActive := true,
    createdAt := 0, updatedAt := 0 }

/-- Seeded admin user (id `admin`). -/
def adminUser : User :=
  { id := "admin", fullName := "Admin User", email := "admin@youngwealth.com",
    password := seedHash, role := "admin",
    schoolType := none, isActive := true,
    createdAt := 0, updatedAt := 0 }

/-- The mock database `users` as seeded at module load. -/
def initialUsers : List User := [johnUser, janeUser, adminUser]

/-- `UserModel.getAll`: active users only. -/
def UserModel.getAll (users : List User) : List User :=
  users.filter (fun u => u.isActive)

/-- `UserModel.getById`: first user with the id, active only. -/
def UserModel.getById (id : String) (users : List User) : Option User :=
  users.find? (fun u => u.id == id && u.isActive)

/-- `UserModel.getByEmail`: first user with the email, active only. -/
def UserModel.getByEmail (email : String) (users : List User) : Option User :=
  users.find? (fun u => u.email == email && u.isActive)

/-- Input of `UserModel.create` (the caller-supplied `userData`). -/
structure NewUserData where
  fullName : String
  email : String
  password : String
  role : String
  schoolType : Option String := none
  deriving Repr, DecidableEq

/-- The user record the `User` constructor builds inside
`UserModel.create`: fresh id, hashed password, `isActive` defaulting to
`true`, fresh timestamps. -/
def mkNewUser (hashFn : String → String) (d : NewUserData) (now : Nat)
    (freshId : String) : User :=
  { id := freshId, fullName := d.fullName, email := d.email,
    password := hashFn d.password, role := d.role,
    schoolType := d.schoolType, isActive := true,
    createdAt := now, updatedAt := now }

/-- `UserModel.create`: rejects (throws, modelled as `none` with the store
unchanged) when any stored record has the same email, regardless of
`isActive`; otherwise hashes the password and appends the new user. -/
def UserModel.create (hashFn : String → String) (d : NewUserData) (now : Nat)
    (freshId : String) (users : List User) : Option User × List User :=
  match users.find? (fun u => u.email == d.email) with
  | some _ => (none, users)
  | none =>
    let u := mkNewUser hashFn d now freshId
    (some u, users ++ [u])

/-- `UserModel.delete`: soft delete. `findIndex` locates the first user
with the id (no `isActive` filter); if found its `isActive` is set to
`false` and `updatedAt` refreshed in place and the record is returned,
otherwise `null` (modelled `none`). -/
def UserModel.delete (id : String) (now : Nat) :
    List User → Option User × List User
  | [] => (none, [])
  | u :: rest =>
    if u.id == id then
      let u' := { u with isActive := false, updatedAt := now }
      (some u', u' :: rest)
    else
      let (r, rest') := UserModel.delete id now rest
      (r, u :: rest')

/-- Video record, from the data model of the spec (`Course.js` is not in
the sources). -/
structure Video where
  id : String
  title : String
  description : String
  videoUrl : String
  duration : ℤ
  createdAt : Nat
  updatedAt : Nat
  deriving Repr, DecidableEq

/-- Course record, from the data model of the spec (`Course.js` is not in
the sources). -/
structure Course where
  id : String
  title : String
  description : String
  category : String
  level : String
  price : ℚ
  duration : ℤ
  thumbnail : Option String
  isActive : Bool
  videos : List Video
  createdAt : Nat
  updatedAt : Nat
  deriving Repr, DecidableEq

/-- Modelled from the spec: `CourseModel.getAll` lists all courses
including inactive ones, for the admin view (`Course.js` is missing from
the sources). -/
def CourseModel.getAll (courses : List Course) : List Course :=
  courses

/-- The validated field values the create-course route passes to
`CourseModel.create` (`courseData` in `admin.js`). -/
structure CourseData where
  title : String
  description : String
  category : String
  level : String
  price : ℚ
  duration : ℤ
  thumbnail : Option String
  deriving Repr, DecidableEq

/-- Modelled from the spec: `CourseModel.create` builds a course from the
validated data with a fresh unique id, fresh timestamps, an empty video
list and `isActive` defaulting to true, and appends it to the store
(`Course.js` is missing from the sources). -/
def CourseModel.create (d : CourseData) (now : Nat) (freshId : String)
    (courses : List Course) : Course × List Course :=
  let c : Course :=
    { id := freshId, title := d.title, description := d.description,
      category := d.category, level := d.level, price := d.price,
      duration := d.duration, thumbnail := d.thumbnail,
      isActive := true, videos := [],
      createdAt := now, updatedAt := now }
  (c, courses ++ [c])

/-- The sparse set of provided fields the update-course route builds
(`updateData` in `admin.js`); a `none` field was not put on the object. -/
structure CourseUpdate where
  title : Option String := none
  description : Option String := none
  category : Option String := none
  level : Option String := none
  price : Option ℚ := none
  duration : Option ℤ := none
  thumbnail : Option String := none
  isActive : Option Bool := none
  deriving Repr, DecidableEq

/-- Modelled from the spec: the strict merge of the provided fields onto an
existing course plus a refreshed `updatedAt` timestamp, as in the JS
spread `{...course, ...updateData, updatedAt: new Date()}`. -/
def applyCourseUpdate (u : CourseUpdate) (now : Nat) (c : Course) : Course :=
  { c with
    title := u.title.getD c.title,
    description := u.description.getD c.description,
    category := u.category.getD c.category,
    level := u.level.getD c.level,
    price := u.price.getD c.price,
    duration := u.duration.getD c.duration,
    thumbnail := match u.thumbnail with
      | some t => some t
      | none => c.thumbnail,
    isActive := u.isActive.getD c.isActive,
    updatedAt := now }

/-- Modelled from the spec: `CourseModel.update` finds the first course
with the id, merges the provided fields onto it and refreshes `updatedAt`,
returning the updated record; a missing id yields the `null` sentinel
(`none`) with no side effect (`Course.js` is missing from the sources). -/
def CourseModel.update (id : String) (u : CourseUpdate) (now : Nat) :
    List Course → Option Course × List Course
  | [] => (none, [])
  | c :: rest =>
    if c.id == id then
      let c' := applyCourseUpdate u now c
      (some c', c' :: rest)
    else
      let (r, rest') := CourseModel.update id u now rest
      (r, c :: rest')

/-- Modelled from the spec: `CourseModel.delete` hard-deletes the first
course with the id, removing it from the collection entirely; a missing id
yields the `null` sentinel with no side effect (`Course.js` is missing
from the sources). -/
def CourseModel.delete (id : String) :
    List Course → Option Course × List Course
  | [] => (none, [])
  | c :: rest =>
    if c.id == id then (some c, rest)
    else
      let (r, rest') := CourseModel.delete id rest
      (r, c :: rest')

/-- Admin object returned by a successful login: the user record with the
`password` field stripped (`const { password: _, ...adminResponse }`). -/
structure AdminView where
  id : String
  fullName : String
  email : String
  role : String
  schoolType : Option String
  isActive : Bool
  createdAt : Nat
  updatedAt : Nat
  deriving Repr, DecidableEq

/-- Strip the password field from a user record. -/
def stripPassword (u : User) : AdminView :=
  { id := u.id, fullName := u.fullName, email := u.email, role := u.role,
    schoolType := u.schoolType, isActive := u.isActive,
    createdAt := u.createdAt, updatedAt := u.updatedAt }

/-- Dashboard statistics object built by `GET /stats`. -/
structure DashboardStats where
  totalCourses : Nat
  activeCourses : Nat
  totalUsers : Nat
  schoolStudents : Nat
  collegeStudents : Nat
  employees : Nat
  totalVideos : Nat
  deriving Repr, DecidableEq

/-- JSON responses of the admin router, one constructor per observably
distinct response shape/status. -/
inductive AdminResp where
  /-- Status 201 `{success:true, course}` -/
  | created (c : Course)
  /-- Status 200 `{success:true, course}` -/
  | okCourse (c : Course)
  /-- Status 200 `{success:true, message:"Course deleted successfully"}` -/
  | courseDeleted
  /-- Status 400 `{success:false, error:"Validation failed", errors}`; the list
  holds the keys of the `errors` object in insertion order (each key has a
  fixed message in the source, so the keys determine the object) -/
  | validationFailed (fields : List String)
  /-- Status 404 `{success:false, error:"... not found"}` -/
  | notFound
  /-- Status 400 `{success:false, error:"Email and password are required"}` -/
  | missingCredentials
  /-- Status 401 `{success:false, error:"Invalid admin credentials"}` -/
  | invalidCredentials
  /-- Status 200 `{success:true, admin}` -/
  | loggedIn (a : AdminView)
  /-- Status 200 `{success:true, stats}` -/
  | okStats (s : DashboardStats)
  deriving Repr, DecidableEq

/-- `POST /login`: validates presence, looks up the active user by the
lower-cased trimmed email, requires the admin role, then compares the
password against the stored hash (`cmp` models `bcrypt.compare`). -/
def postLogin (email password : Option String)
    (cmp : String → String → Bool) (users : List User) : AdminResp :=
  if !(truthy email) || !(truthy password) then .missingCredentials
  else
    match UserModel.getByEmail (jsTrim (jsToLower (email.getD ""))) users with
    | none => .invalidCredentials
    | some u =>
      if u.role != "admin" then .invalidCredentials
      else if cmp (password.getD "") u.password then
        .loggedIn (stripPassword u)
      else .invalidCredentials

/-- Request body of `POST /courses` (each field a multipart string when
present). -/
structure CreateCourseBody where
  title : Option String := none
  description : Option String := none
  category : Option String := none
  level : Option String := none
  price : Option String := none
  duration : Option String := none
  deriving Repr, DecidableEq

/-- Create-path title check: `!title || title.trim().length < 3`. -/
def createTitleErr : Option String → Bool
  | none => true
  | some s => s == "" || decide ((jsTrim s).length < 3)

/-- Create-path description check:
`!description || description.trim().length < 10`. -/
def createDescErr : Option String → Bool
  | none => true
  | some s => s == "" || decide ((jsTrim s).length < 10)

/-- Membership in the category enum, `['school','college','employee'].includes`. -/
def validCategory (o : Option String) : Bool :=
  o == some "school" || o == some "college" || o == some "employee"

/-- Membership in the level enum, `['beginner','intermediate','advanced'].includes`. -/
def validLevel (o : Option String) : Bool :=
  o == some "beginner" || o == some "intermediate" || o == some "advanced"

/-- Price check: `isNaN(parseFloat(price)) || parseFloat(price) < 0`. -/
def priceErr (p : Option String) : Bool :=
  match jsParseFloat p with
  | none => true
  | some q => decide (q < 0)

/-- Duration check: `isNaN(parseInt(duration)) || parseInt(duration) <= 0`. -/
def durationErr (d : Option String) : Bool :=
  match jsParseInt d with
  | none => true
  | some n => decide (n ≤ 0)

/-- Keys of the `errors` object built by the `POST /courses` validation
block, in insertion order. -/
def createErrors (b : CreateCourseBody) : List String :=
  (if createTitleErr b.title then ["title"] else []) ++
  (if createDescErr b.description then ["description"] else []) ++
  (if !(validCategory b.category) then ["category"] else []) ++
  (if !(validLevel b.level) then ["level"] else []) ++
  (if priceErr b.price then ["price"] else []) ++
  (if durationErr b.duration then ["duration"] else [])

/-- `POST /courses`: collect all field errors; on any, answer 400 with the
error map and create nothing; otherwise build `courseData` (trimmed
strings, `parseFloat(price) || 0`, `parseInt(duration) || 0`, thumbnail
path from the uploaded file when present) and create the course. -/
def postCourses (b : CreateCourseBody) (file : Option String) (now : Nat)
    (freshId : String) (store : List Course) : AdminResp × List Course :=
  let errs := createErrors b
  if errs.isEmpty then
    let d : CourseData :=
      { title := jsTrim (b.title.getD ""),
        description := jsTrim (b.description.getD ""),
        category := b.category.getD "",
        level := b.level.getD "",
        price := (jsParseFloat b.price).getD 0,
        duration := (jsParseInt b.duration).getD 0,
        thumbnail := file.map (fun f => "/uploads/thumbnails/" ++ f) }
    let (c, store') := CourseModel.create d now freshId store
    (.created c, store')
  else (.validationFailed errs, store)

/-- Request body of `PUT /courses/:id`. -/
structure UpdateCourseBody where
  title : Option String := none
  description : Option String := none
  category : Option String := none
  level : Option String := none
  price : Option String := none
  duration : Option String := none
  isActive : Option String := none
  deriving Repr, DecidableEq

/-- Update-path title check, guarded by truthiness:
`title && title.trim().length < 3`. -/
def updateTitleErr : Option String → Bool
  | none => false
  | some s => s != "" && decide ((jsTrim s).length < 3)

/-- Update-path description check:
`description && description.trim().length < 10`. -/
def updateDescErr : Option String → Bool
  | none => false
  | some s => s != "" && decide ((jsTrim s).length < 10)

/-- Update-path category check: `category && !enum.includes(category)`. -/
def updateCategoryErr (o : Option String) : Bool :=
  truthy o && !(validCategory o)

/-- Update-path level check: `level && !enum.includes(level)`. -/
def updateLevelErr (o : Option String) : Bool :=
  truthy o && !(validLevel o)

/-- Update-path price check:
`price && (isNaN(parseFloat(price)) || parseFloat(price) < 0)`. -/
def updatePriceErr (o : Option String) : Bool :=
  truthy o && priceErr o

/-- Update-path duration check:
`duration && (isNaN(parseInt(duration)) || parseInt(duration) <= 0)`. -/
def updateDurationErr (o : Option String) : Bool :=
  truthy o && durationErr o

/-- Keys of the `errors` object built by the `PUT /courses/:id` validation
block, in insertion order. -/
def updateErrors (b : UpdateCourseBody) : List String :=
  (if updateTitleErr b.title then ["title"] else []) ++
  (if updateDescErr b.description then ["description"] else []) ++
  (if updateCategoryErr b.category then ["category"] else []) ++
  (if updateLevelErr b.level then ["level"] else []) ++
  (if updatePriceErr b.price then ["price"] else []) ++
  (if updateDurationErr b.duration then ["duration"] else [])

/-- The `updateData` object built by `PUT /courses/:id`: string fields are
included only when truthy, but price and duration are included whenever
the field is not `undefined` (`price !== undefined`), with value
`parseFloat(price) || 0` resp. `parseInt(duration) || 0`; `isActive` is
parsed by string equality with `"true"`; the thumbnail only from an
uploaded file. -/
def buildCourseUpdate (b : UpdateCourseBody) (file : Option String) :
    CourseUpdate :=
  { title := if truthy b.title then some (jsTrim (b.title.getD "")) else none,
    description :=
      if truthy b.description then some (jsTrim (b.description.getD ""))
      else none,
    category := if truthy b.category then b.category else none,
    level := if truthy b.level then b.level else none,
    price := match b.price with
      | none => none
      | some s => some ((jsParseFloatChars s.data).getD 0),
    duration := match b.duration with
      | none => none
      | some s => some ((jsParseIntChars s.data).getD 0),
    thumbnail := file.map (fun f => "/uploads/thumbnails/" ++ f),
    isActive := b.isActive.map (fun s => s == "true") }

/-- `PUT /courses/:id`: collect field errors on present fields; on any,
answer 400 and change nothing; otherwise merge `updateData` into the
course, answering 404 when the id resolves to no course. -/
def putCourse (id : String) (b : UpdateCourseBody) (file : Option String)
    (now : Nat) (store : List Course) : AdminResp × List Course :=
  let errs := updateErrors b
  if errs.isEmpty then
    match CourseModel.update id (buildCourseUpdate b file) now store with
    | (some c, store') => (.okCourse c, store')
    | (none, store') => (.notFound, store')
  else (.validationFailed errs, store)

/-- `DELETE /courses/:id`: hard delete, 404 when the id resolves to no
course. -/
def deleteCourse (id : String) (store : List Course) :
    AdminResp × List Course :=
  match CourseModel.delete id store with
  | (some _, store') => (.courseDeleted, store')
  | (none, store') => (.notFound, store')

/-- `GET /stats`: read-only fold over `CourseModel.getAll()` (all courses)
and `UserModel.getAll()` (active users only). -/
def getStats (courses : List Course) (users : List User) : DashboardStats :=
  let cs := CourseModel.getAll courses
  let us := UserModel.getAll users
  { totalCourses := cs.length,
    activeCourses := (cs.filter (fun c => c.isActive)).length,
    totalUsers := (us.filter (fun u => u.role != "admin")).length,
    schoolStudents := (us.filter (fun u => u.role == "school-student")).length,
    collegeStudents := (us.filter (fun u => u.role == "college-student")).length,
    employees := (us.filter (fun u => u.role == "employee")).length,
    totalVideos := cs.foldl (fun total c => total + c.videos.length) 0 }

/-- Concrete course used to exercise the handlers. -/
def demoCourse : Course :=
  { id := "c1", title := "Budgeting Basics",
    description := "Learn how to budget your money.",
    category := "school", level := "beginner", price := 100, duration := 30,
    thumbnail := none, isActive := true, videos := [],
    createdAt := 0, updatedAt := 0 }

/-- Concrete store with two active courses and one inactive course. -/
def demoStore3 : List Course :=
  [demoCourse, { demoCourse with id := "c2" },
   { demoCourse with id := "c3", isActive := false }]

/-- Concrete create request violating the title, description, category,
price and duration rules (level is valid). -/
def badBody : CreateCourseBody :=
  { title := some "ab", description := some "short",
    category := some "corporate", level := some "beginner",
    price := some "-5", duration := some "x" }

/-- Concrete creation input with a fresh email. -/
def demoNewUser : NewUserData :=
  { fullName := "New Person", email := "new@example.com",
    password := "pw123456", role := "employee" }

/-- Concrete creation input reusing the seeded email of John Doe. -/
def dupNewUser : NewUserData :=
  { fullName := "Someone Else", email := "john@student.com",
    password := "pw123456", role := "employee" }

/-! Helper lemmas shared by the claim theorems. -/

/-- Updating an id that matches no course is the `null` sentinel with the
store unchanged. -/
theorem courseUpdate_not_found (id : String) (u : CourseUpdate) (now : Nat) :
    ∀ l : List Course, (∀ c ∈ l, c.id ≠ id) →
      CourseModel.update id u now l = (none, l)
  | [], _ => rfl
  | c :: rest, h => by
    have hc : (c.id == id) = false := by simp [h c (by simp)]
    simp [CourseModel.update, hc,
      courseUpdate_not_found id u now rest (fun d hd => h d (by simp [hd]))]

/-- Updating the first course whose id matches replaces exactly that
course by its merged version. -/
theorem courseUpdate_found (id : String) (u : CourseUpdate) (now : Nat)
    (c : Course) (l₂ : List Course) (hc : c.id = id) :
    ∀ l₁ : List Course, (∀ d ∈ l₁, d.id ≠ id) →
      CourseModel.update id u now (l₁ ++ c :: l₂) =
        (some (applyCourseUpdate u now c),
         l₁ ++ applyCourseUpdate u now c :: l₂)
  | [], _ => by simp [CourseModel.update, hc]
  | d :: rest, h => by
    have hd : (d.id == id) = false := by simp [h d (by simp)]
    simp [CourseModel.update, hd,
      courseUpdate_found id u now c l₂ hc rest (fun e he => h e (by simp [he]))]

/-- Deleting an id that matches no course is the `null` sentinel with the
store unchanged. -/
theorem courseDelete_not_found (id : String) :
    ∀ l : List Course, (∀ c ∈ l, c.id ≠ id) →
      CourseModel.delete id l = (none, l)
  | [], _ => rfl
  | c :: rest, h => by
    have hc : (c.id == id) = false := by simp [h c (by simp)]
    simp [CourseModel.delete, hc,
      courseDelete_not_found id rest (fun d hd => h d (by simp [hd]))]

/-- Soft-deleting preserves the number of stored user records. -/
theorem userDelete_length (id : String) (now : Nat) :
    ∀ l : List User, ((UserModel.delete id now l).2).length = l.length
  | [] => rfl
  | u :: rest => by
    by_cases hu : u.id = id
    · simp [UserModel.delete, hu]
    · have hu' : (u.id == id) = false := by simp [hu]
      simp [UserModel.delete, hu', userDelete_length id now rest]

/-- Soft-deleting an id that matches no user returns `null` and leaves the
store unchanged. -/
theorem userDelete_not_found (id : String) (now : Nat) :
    ∀ l : List User, (∀ u ∈ l, u.id ≠ id) →
      UserModel.delete id now l = (none, l)
  | [], _ => rfl
  | u :: rest, h => by
    have hu : (u.id == id) = false := by simp [h u (by simp)]
    simp [UserModel.delete, hu,
      userDelete_not_found id now rest (fun v hv => h v (by simp [hv]))]

/-- Soft-deleting flips exactly the first user whose id matches. -/
theorem userDelete_found (id : String) (now : Nat) (u : User)
    (l₂ : List User) (hu : u.id = id) :
    ∀ l₁ : List User, (∀ v ∈ l₁, v.id ≠ id) →
      UserModel.delete id now (l₁ ++ u :: l₂) =
        (some { u with isActive := false, updatedAt := now },
         l₁ ++ { u with isActive := false, updatedAt := now } :: l₂)
  | [], _ => by simp [UserModel.delete, hu]
  | v :: rest, h => by
    have hv : (v.id == id) = false := by simp [h v (by simp)]
    simp [UserModel.delete, hv,
      userDelete_found id now u l₂ hu rest (fun w hw => h w (by simp [hw]))]

/-- Length of a double filter as a single conjunctive count. -/
theorem length_filter_filter {α : Type} (p q : α → Bool) :
    ∀ l : List α,
      ((l.filter p).filter q).length = l.countP (fun a => p a && q a)
  | [] => rfl
  | a :: l => by
    have ih := length_filter_filter p q l
    rw [List.filter_cons]
    by_cases hp : p a
    · rw [if_pos hp, List.filter_cons]
      by_cases hq : q a
      · rw [if_pos hq, List.length_cons, ih, List.countP_cons]
        simp [hp, hq]
      · rw [if_neg hq, ih, List.countP_cons]
        simp [hp, hq]
    · rw [if_neg hp, ih, List.countP_cons]
      simp [hp]

/-- The `reduce` in `GET /stats` sums the video-list lengths. -/
theorem foldl_add_videos :
    ∀ (l : List Course) (n : Nat),
      l.foldl (fun total c => total + c.videos.length) n =
        n + (l.map (fun c => c.videos.length)).sum
  | [], n => by simp
  | c :: l, n => by
    simp [foldl_add_videos l (n + c.videos.length), Nat.add_assoc]

/-- The totalUsers statistic counts active non-admin users. -/
theorem stats_totalUsers (courses : List Course) (users : List User) :
    (getStats courses users).totalUsers =
      users.countP (fun v => v.isActive && v.role != "admin") := by
  show ((users.filter (fun v => v.isActive)).filter
    (fun v => v.role != "admin")).length = _
  exact length_filter_filter _ _ users

/-- The schoolStudents statistic counts active school students. -/
theorem stats_schoolStudents (courses : List Course) (users : List User) :
    (getStats courses users).schoolStudents =
      users.countP (fun v => v.isActive && v.role == "school-student") := by
  show ((users.filter (fun v => v.isActive)).filter
    (fun v => v.role == "school-student")).length = _
  exact length_filter_filter _ _ users

/-- The collegeStudents statistic counts active college students. -/
theorem stats_collegeStudents (courses : List Course) (users : List User) :
    (getStats courses users).collegeStudents =
      users.countP (fun v => v.isActive && v.role == "college-student") := by
  show ((users.filter (fun v => v.isActive)).filter
    (fun v => v.role == "college-student")).length = _
  exact length_filter_filter _ _ users

/-- The employees statistic counts active employees. -/
theorem stats_employees (courses : List Course) (users : List User) :
    (getStats courses users).employees =
      users.countP (fun v => v.isActive && v.role == "employee") := by
  show ((users.filter (fun v => v.isActive)).filter
    (fun v => v.role == "employee")).length = _
  exact length_filter_filter _ _ users

/-- Replacing the element between `l₁` and `l₂` by one the predicate
rejects drops the count by exactly one when the predicate accepted the
original element. -/
theorem countP_replace_drop {α : Type} (p : α → Bool) (l₁ l₂ : List α)
    (a b : α) (ha : p a = true) (hb : p b = false) :
    (l₁ ++ b :: l₂).countP p + 1 = (l₁ ++ a :: l₂).countP p := by
  simp [List.countP_append, List.countP_cons, ha, hb]
  omega

/-! Claim theorems. -/

/-- C8: `UserModel.delete` never removes a record: the user list length is
unchanged for every id; when the id resolves to a user (the first match of
`findIndex`), that user gets `isActive := false` and a refreshed
`updatedAt` and is returned; otherwise the `null` sentinel is returned and
no record is modified. -/
theorem userDelete_soft (id : String) (now : Nat) (users : List User) :
    ((UserModel.delete id now users).2).length = users.length
    ∧ ((∀ u ∈ users, u.id ≠ id) →
        UserModel.delete id now users = (none, users))
    ∧ (∀ (l₁ : List User) (u : User) (l₂ : List User),
        users = l₁ ++ u :: l₂ → (∀ v ∈ l₁, v.id ≠ id) → u.id = id →
        UserModel.delete id now users =
          (some { u with isActive := false, updatedAt := now },
           l₁ ++ { u with isActive := false, updatedAt := now } :: l₂)) := by
  refine ⟨userDelete_length id now users,
    userDelete_not_found id now users, ?_⟩
  intro l₁ u l₂ hsplit h₁ hu
  subst hsplit
  exact userDelete_found id now u l₂ hu l₁ h₁

/-- Witness for C8: soft-deleting seeded user `1` flips exactly John Doe,
and a missing id leaves the seeded store untouched. -/
theorem userDelete_soft_witness :
    UserModel.delete "1" 9 initialUsers =
      (some { johnUser with isActive := false, updatedAt := 9 },
       [{ johnUser with isActive := false, updatedAt := 9 },
        janeUser, adminUser])
    ∧ UserModel.delete "zzz" 9 initialUsers = (none, initialUsers)
    ∧ ((UserModel.delete "1" 9 initialUsers).2).length =
        initialUsers.length := by
  refine ⟨?_, ?_, (userDelete_soft "1" 9 initialUsers).1⟩
  · have h := (userDelete_soft "1" 9 initialUsers).2.2
      [] johnUser [janeUser, adminUser] rfl (by simp) rfl
    simpa using h
  · exact (userDelete_soft "zzz" 9 initialUsers).2.1 (by decide)

/-- C7: `UserModel.create` checks email uniqueness against all stored
records regardless of `isActive`; a duplicate email is rejected (the
thrown conflict, modelled as the `none` result) leaving the store
unchanged, otherwise exactly one user is appended, with the hash of the
supplied plaintext as its stored password. -/
theorem userCreate_email_unique (hashFn : String → String)
    (d : NewUserData) (now : Nat) (freshId : String) (users : List User) :
    ((∃ u ∈ users, u.email = d.email) →
      UserModel.create hashFn d now freshId users = (none, users))
    ∧ ((∀ u ∈ users, u.email ≠ d.email) →
        UserModel.create hashFn d now freshId users =
          (some (mkNewUser hashFn d now freshId),
           users ++ [mkNewUser hashFn d now freshId])
        ∧ (mkNewUser hashFn d now freshId).password =
            hashFn d.password) := by
  constructor
  · rintro ⟨u, hu, he⟩
    cases hf : users.find? (fun v => v.email == d.email) with
    | none =>
      have := List.find?_eq_none.mp hf u hu
      simp [he] at this
    | some v =>
      simp [UserModel.create, hf]
  · intro h
    have hf : users.find? (fun v => v.email == d.email) = none := by
      rw [List.find?_eq_none]
      intro x hx
      simp [h x hx]
    exact ⟨by simp [UserModel.create, hf], rfl⟩

/-- Witness for C7: a fresh email is appended with the hashed password;
the seeded email of John Doe is rejected even though the same call with
an active store would be, and the store is unchanged on rejection. -/
theorem userCreate_email_unique_witness :
    UserModel.create (fun s => s ++ "#hashed") demoNewUser 3 "u9"
        initialUsers =
      (some (mkNewUser (fun s => s ++ "#hashed") demoNewUser 3 "u9"),
       initialUsers ++ [mkNewUser (fun s => s ++ "#hashed") demoNewUser 3 "u9"])
    ∧ (mkNewUser (fun s => s ++ "#hashed") demoNewUser 3 "u9").password =
        "pw123456#hashed"
    ∧ UserModel.create (fun s => s ++ "#hashed") dupNewUser 3 "u9"
        initialUsers = (none, initialUsers) := by
  refine ⟨?_, by decide, ?_⟩
  · exact ((userCreate_email_unique (fun s => s ++ "#hashed") demoNewUser 3
      "u9" initialUsers).2 (by decide)).1
  · exact (userCreate_email_unique (fun s => s ++ "#hashed") dupNewUser 3
      "u9" initialUsers).1 ⟨johnUser, by simp [initialUsers], rfl⟩

/-- C5: for an id resolving to no course, `PUT /courses/:id` with a body
passing validation and `DELETE /courses/:id` both answer 404 and leave the
course store entirely unchanged. -/
theorem course_missing_id_not_found (id : String) (b : UpdateCourseBody)
    (now : Nat) (store : List Course)
    (hmiss : ∀ c ∈ store, c.id ≠ id) (hvalid : updateErrors b = []) :
    putCourse id b none now store = (.notFound, store)
    ∧ deleteCourse id store = (.notFound, store) := by
  constructor
  · simp [putCourse, hvalid,
      courseUpdate_not_found id (buildCourseUpdate b none) now store hmiss]
  · simp [deleteCourse, courseDelete_not_found id store hmiss]

/-- Witness for C5: a missing id against the concrete one-course store. -/
theorem course_missing_id_not_found_witness :
    putCourse "nope" { title := some "Valid Title" } none 3 [demoCourse] =
      (.notFound, [demoCourse])
    ∧ deleteCourse "nope" [demoCourse] = (.notFound, [demoCourse]) :=
  course_missing_id_not_found "nope" { title := some "Valid Title" } 3
    [demoCourse] (by decide) (by decide)

/-- C4: a partial update whose body carries only a (valid) new title
changes only the title and the `updatedAt` timestamp of the first course
matching the id; every other field and every other course is unchanged. -/
theorem putCourse_title_only_frame (store l₁ : List Course) (c : Course)
    (l₂ : List Course) (now : Nat)
    (hsplit : store = l₁ ++ c :: l₂) (h₁ : ∀ d ∈ l₁, d.id ≠ c.id) :
    putCourse c.id { title := some "New Title" } none now store =
      (.okCourse { c with title := "New Title", updatedAt := now },
       l₁ ++ { c with title := "New Title", updatedAt := now } :: l₂) := by
  subst hsplit
  have herr : updateErrors { title := some "New Title" } = [] := rfl
  have hupd := courseUpdate_found c.id
    (buildCourseUpdate { title := some "New Title" } none) now c l₂ rfl l₁ h₁
  have happ : applyCourseUpdate
      (buildCourseUpdate { title := some "New Title" } none) now c =
      { c with title := "New Title", updatedAt := now } := rfl
  rw [happ] at hupd
  simp [putCourse, herr, hupd]

/-- Witness for C4: title-only update of the concrete course. -/
theorem putCourse_title_only_frame_witness :
    putCourse "c1" { title := some "New Title" } none 7 [demoCourse] =
      (.okCourse { demoCourse with title := "New Title", updatedAt := 7 },
       [{ demoCourse with title := "New Title", updatedAt := 7 }]) :=
  putCourse_title_only_frame [demoCourse] [] demoCourse [] 7 rfl (by simp)

/-- Counterexample to C2: an update carrying the explicit value `0` for
price is not ignored — the course price changes from 100 to 0 (the merge
guard is `price !== undefined`, not truthiness) — and the explicit value
`0` for duration is not silently skipped either: it fails validation with
a 400 naming `duration`. -/
theorem putCourse_zero_ignored_cex :
    demoCourse.price = 100
    ∧ (putCourse "c1" { price := some "0" } none 5 [demoCourse]).2 =
        [{ demoCourse with price := 0, updatedAt := 5 }]
    ∧ (putCourse "c1" { duration := some "0" } none 5 [demoCourse]) =
        (.validationFailed ["duration"], [demoCourse]) := by
  have hpf : priceErr (some "0") = false := by
    rw [show priceErr (some "0") =
      decide ((1 * (((0:Nat):ℚ) + ((0:Nat):ℚ) / (10:ℚ) ^ (0:Nat))) < 0)
      from rfl]
    norm_num
  have hupe : updatePriceErr (some "0") = false := by
    simp [updatePriceErr, truthy, hpf]
  have herr : updateErrors { price := some "0" } = [] := by
    simp [updateErrors, updateTitleErr, updateDescErr, updateCategoryErr,
      updateLevelErr, updateDurationErr, truthy, hupe]
  have hq : ((jsParseFloatChars "0".data).getD 0 : ℚ) = 0 := by
    rw [show jsParseFloatChars "0".data =
      some (1 * (((0:Nat):ℚ) + ((0:Nat):ℚ) / (10:ℚ) ^ (0:Nat))) from rfl]
    norm_num
  have hupd := courseUpdate_found "c1"
    (buildCourseUpdate { price := some "0" } none) 5 demoCourse [] rfl
    [] (by simp)
  have happ : applyCourseUpdate
      (buildCourseUpdate { price := some "0" } none) 5 demoCourse =
      { demoCourse with price := 0, updatedAt := 5 } := by
    simp [applyCourseUpdate, buildCourseUpdate, truthy, hq]
  rw [happ] at hupd
  simp only [List.nil_append] at hupd
  have herr2 : updateErrors { duration := some "0" } = ["duration"] := by
    decide
  refine ⟨rfl, ?_, ?_⟩
  · simp [putCourse, herr, hupd]
  · simp [putCourse, herr2]

/-- C2 as amended: an update carrying `price = "0"` passes validation and
is applied by the merge, setting the course price to 0 (with a refreshed
`updatedAt`) and touching nothing else, while an update carrying
`duration = "0"` fails validation with a 400 naming `duration` and
changes nothing. -/
theorem putCourse_zero_applied (l₁ : List Course) (c : Course)
    (l₂ : List Course) (now : Nat) (h₁ : ∀ d ∈ l₁, d.id ≠ c.id) :
    putCourse c.id { price := some "0" } none now (l₁ ++ c :: l₂) =
      (.okCourse { c with price := 0, updatedAt := now },
       l₁ ++ { c with price := 0, updatedAt := now } :: l₂)
    ∧ putCourse c.id { duration := some "0" } none now (l₁ ++ c :: l₂) =
        (.validationFailed ["duration"], l₁ ++ c :: l₂) := by
  constructor
  · have hpf : priceErr (some "0") = false := by
      rw [show priceErr (some "0") =
        decide ((1 * (((0:Nat):ℚ) + ((0:Nat):ℚ) / (10:ℚ) ^ (0:Nat))) < 0)
        from rfl]
      norm_num
    have hupe : updatePriceErr (some "0") = false := by
      simp [updatePriceErr, truthy, hpf]
    have herr : updateErrors { price := some "0" } = [] := by
      simp [updateErrors, updateTitleErr, updateDescErr, updateCategoryErr,
        updateLevelErr, updateDurationErr, truthy, hupe]
    have hq : ((jsParseFloatChars "0".data).getD 0 : ℚ) = 0 := by
      rw [show jsParseFloatChars "0".data =
        some (1 * (((0:Nat):ℚ) + ((0:Nat):ℚ) / (10:ℚ) ^ (0:Nat))) from rfl]
      norm_num
    have hupd := courseUpdate_found c.id
      (buildCourseUpdate { price := some "0" } none) now c l₂ rfl l₁ h₁
    have happ : applyCourseUpdate
        (buildCourseUpdate { price := some "0" } none) now c =
        { c with price := 0, updatedAt := now } := by
      simp [applyCourseUpdate, buildCourseUpdate, truthy, hq]
    rw [happ] at hupd
    simp [putCourse, herr, hupd]
  · have herr : updateErrors { duration := some "0" } = ["duration"] := by
      decide
    simp [putCourse, herr]

/-- Witness for the amended C2 on the concrete store. -/
theorem putCourse_zero_applied_witness :
    putCourse "c1" { price := some "0" } none 5 [demoCourse] =
      (.okCourse { demoCourse with price := 0, updatedAt := 5 },
       [{ demoCourse with price := 0, updatedAt := 5 }])
    ∧ putCourse "c1" { duration := some "0" } none 5 [demoCourse] =
        (.validationFailed ["duration"], [demoCourse]) :=
  putCourse_zero_applied [] demoCourse [] 5 (by simp)

/-- C9: a present-but-empty price skips validation (the guard
`price && ...` treats the empty string as absent) yet the merge still
fires (`price !== undefined`), so `parseFloat("") || 0` silently resets
the price to 0 under a 200 response; the same happens for an
empty-string duration. -/
theorem putCourse_empty_string_resets (l₁ : List Course) (c : Course)
    (l₂ : List Course) (now : Nat) (h₁ : ∀ d ∈ l₁, d.id ≠ c.id) :
    updateErrors { price := some "" } = []
    ∧ updateErrors { duration := some "" } = []
    ∧ putCourse c.id { price := some "" } none now (l₁ ++ c :: l₂) =
        (.okCourse { c with price := 0, updatedAt := now },
         l₁ ++ { c with price := 0, updatedAt := now } :: l₂)
    ∧ putCourse c.id { duration := some "" } none now (l₁ ++ c :: l₂) =
        (.okCourse { c with duration := 0, updatedAt := now },
         l₁ ++ { c with duration := 0, updatedAt := now } :: l₂) := by
  refine ⟨by decide, by decide, ?_, ?_⟩
  · have hupd := courseUpdate_found c.id
      (buildCourseUpdate { price := some "" } none) now c l₂ rfl l₁ h₁
    have happ : applyCourseUpdate
        (buildCourseUpdate { price := some "" } none) now c =
        { c with price := 0, updatedAt := now } := rfl
    rw [happ] at hupd
    have herr : updateErrors { price := some "" } = [] := by decide
    simp [putCourse, herr, hupd]
  · have hupd := courseUpdate_found c.id
      (buildCourseUpdate { duration := some "" } none) now c l₂ rfl l₁ h₁
    have happ : applyCourseUpdate
        (buildCourseUpdate { duration := some "" } none) now c =
        { c with duration := 0, updatedAt := now } := rfl
    rw [happ] at hupd
    have herr : updateErrors { duration := some "" } = [] := by decide
    simp [putCourse, herr, hupd]

/-- Witness for C9 on the concrete store. -/
theorem putCourse_empty_string_resets_witness :
    putCourse "c1" { price := some "" } none 5 [demoCourse] =
      (.okCourse { demoCourse with price := 0, updatedAt := 5 },
       [{ demoCourse with price := 0, updatedAt := 5 }])
    ∧ putCourse "c1" { duration := some "" } none 5 [demoCourse] =
        (.okCourse { demoCourse with duration := 0, updatedAt := 5 },
         [{ demoCourse with duration := 0, updatedAt := 5 }]) :=
  ⟨(putCourse_empty_string_resets [] demoCourse [] 5 (by simp)).2.2.1,
   (putCourse_empty_string_resets [] demoCourse [] 5 (by simp)).2.2.2⟩

/-- The keys of the create-validation error map are exactly the invalid
fields. -/
theorem mem_createErrors (b : CreateCourseBody) (f : String) :
    f ∈ createErrors b ↔
      ((f = "title" ∧ createTitleErr b.title = true) ∨
       (f = "description" ∧ createDescErr b.description = true) ∨
       (f = "category" ∧ validCategory b.category = false) ∨
       (f = "level" ∧ validLevel b.level = false) ∨
       (f = "price" ∧ priceErr b.price = true) ∨
       (f = "duration" ∧ durationErr b.duration = true)) := by
  unfold createErrors
  cases h1 : createTitleErr b.title <;>
    cases h2 : createDescErr b.description <;>
      cases h3 : validCategory b.category <;>
        cases h4 : validLevel b.level <;>
          cases h5 : priceErr b.price <;>
            cases h6 : durationErr b.duration <;>
              simp

/-- With at least one invalid field the error map is non-empty. -/
theorem createErrors_ne_nil (b : CreateCourseBody)
    (h : createTitleErr b.title = true ∨ createDescErr b.description = true ∨
         validCategory b.category = false ∨ validLevel b.level = false ∨
         priceErr b.price = true ∨ durationErr b.duration = true) :
    createErrors b ≠ [] := by
  intro hnil
  rcases h with h | h | h | h | h | h
  · have := (mem_createErrors b "title").mpr (Or.inl ⟨rfl, h⟩)
    rw [hnil] at this
    simp at this
  · have := (mem_createErrors b "description").mpr
      (Or.inr (Or.inl ⟨rfl, h⟩))
    rw [hnil] at this
    simp at this
  · have := (mem_createErrors b "category").mpr
      (Or.inr (Or.inr (Or.inl ⟨rfl, h⟩)))
    rw [hnil] at this
    simp at this
  · have := (mem_createErrors b "level").mpr
      (Or.inr (Or.inr (Or.inr (Or.inl ⟨rfl, h⟩))))
    rw [hnil] at this
    simp at this
  · have := (mem_createErrors b "price").mpr
      (Or.inr (Or.inr (Or.inr (Or.inr (Or.inl ⟨rfl, h⟩)))))
    rw [hnil] at this
    simp at this
  · have := (mem_createErrors b "duration").mpr
      (Or.inr (Or.inr (Or.inr (Or.inr (Or.inr ⟨rfl, h⟩)))))
    rw [hnil] at this
    simp at this

/-- C1: when any create-course field is invalid — short title, short
description, category or level outside its enum, non-numeric or negative
price, non-numeric or non-positive duration — the route answers 400 with
an error map whose keys are exactly the invalid fields (all violations
collected, not short-circuited), and the course store is unchanged (no
course is created). -/
theorem postCourses_invalid_rejected (b : CreateCourseBody)
    (file : Option String) (now : Nat) (freshId : String)
    (store : List Course)
    (h : createTitleErr b.title = true ∨ createDescErr b.description = true ∨
         validCategory b.category = false ∨ validLevel b.level = false ∨
         priceErr b.price = true ∨ durationErr b.duration = true) :
    postCourses b file now freshId store =
      (.validationFailed (createErrors b), store)
    ∧ ∀ f : String, f ∈ createErrors b ↔
        ((f = "title" ∧ createTitleErr b.title = true) ∨
         (f = "description" ∧ createDescErr b.description = true) ∨
         (f = "category" ∧ validCategory b.category = false) ∨
         (f = "level" ∧ validLevel b.level = false) ∨
         (f = "price" ∧ priceErr b.price = true) ∨
         (f = "duration" ∧ durationErr b.duration = true)) := by
  refine ⟨?_, fun f => mem_createErrors b f⟩
  have hne := createErrors_ne_nil b h
  have hfalse : (createErrors b).isEmpty = false := by
    cases hl : createErrors b with
    | nil => exact absurd hl hne
    | cons a l => rfl
  simp [postCourses, hfalse]

/-- Witness for C1: the concrete invalid body is rejected with exactly its
five invalid fields named (level, the only valid field, is absent). -/
theorem postCourses_invalid_rejected_witness :
    postCourses badBody none 1 "id1" [] =
      (.validationFailed (createErrors badBody), [])
    ∧ createErrors badBody =
        ["title", "description", "category", "price", "duration"] := by
  have hneg : priceErr badBody.price = true := by
    rw [show priceErr badBody.price =
      decide ((-1 * (((5:Nat):ℚ) + ((0:Nat):ℚ) / (10:ℚ) ^ (0:Nat))) < 0)
      from rfl]
    norm_num
  have h1 : createTitleErr badBody.title = true := by decide
  have h2 : createDescErr badBody.description = true := by decide
  have h3 : validCategory badBody.category = false := by decide
  have h4 : validLevel badBody.level = true := by decide
  have h6 : durationErr badBody.duration = true := by decide
  refine ⟨(postCourses_invalid_rejected badBody none 1 "id1" []
    (Or.inl h1)).1, ?_⟩
  simp [createErrors, h1, h2, h3, h4, h6, hneg]

/-- C3: `GET /stats` reports totalCourses as the count of all courses
(inactive included), activeCourses as the count of courses with
`isActive`, and totalVideos as the sum of the video-list lengths; in
particular a store of 3 courses of which 2 are active reports
totalCourses = 3 and activeCourses = 2. -/
theorem getStats_course_counts (courses : List Course) (users : List User) :
    (getStats courses users).totalCourses = courses.length
    ∧ (getStats courses users).activeCourses =
        courses.countP (fun c => c.isActive)
    ∧ (getStats courses users).totalVideos =
        (courses.map (fun c => c.videos.length)).sum
    ∧ (courses.length = 3 → courses.countP (fun c => c.isActive) = 2 →
        (getStats courses users).totalCourses = 3
        ∧ (getStats courses users).activeCourses = 2) := by
  have h1 : (getStats courses users).totalCourses = courses.length := rfl
  have h2 : (getStats courses users).activeCourses =
      courses.countP (fun c => c.isActive) := by
    show (courses.filter (fun c => c.isActive)).length = _
    rw [List.countP_eq_length_filter]
  have h3 : (getStats courses users).totalVideos =
      (courses.map (fun c => c.videos.length)).sum := by
    show courses.foldl (fun total c => total + c.videos.length) 0 = _
    rw [foldl_add_videos, Nat.zero_add]
  exact ⟨h1, h2, h3, fun ha hb => ⟨by rw [h1, ha], by rw [h2, hb]⟩⟩

/-- Witness for C3 on the concrete store of 2 active + 1 inactive
courses. -/
theorem getStats_course_counts_witness :
    (getStats demoStore3 initialUsers).totalCourses = 3
    ∧ (getStats demoStore3 initialUsers).activeCourses = 2 :=
  (getStats_course_counts demoStore3 initialUsers).2.2.2
    (by decide) (by decide)

/-- C6: `POST /login` with the seeded admin email and the correct password
(one accepted by `bcrypt.compare` against the stored hash) answers 200
with an admin object of role `admin` and no password field (the
`AdminView` type carries no password); a wrong password answers 401; an
email resolving to no active user, or to a user whose role is not
`admin`, also answers 401. -/
theorem adminLogin_spec (cmp : String → String → Bool)
    (hgood : cmp "admin123" seedHash = true) :
    postLogin (some "admin@youngwealth.com") (some "admin123") cmp
        initialUsers = .loggedIn (stripPassword adminUser)
    ∧ (stripPassword adminUser).role = "admin"
    ∧ (∀ pw : String, pw ≠ "" → cmp pw seedHash = false →
        postLogin (some "admin@youngwealth.com") (some pw) cmp
          initialUsers = .invalidCredentials)
    ∧ (∀ (users : List User) (e pw : String), e ≠ "" → pw ≠ "" →
        (∀ u, UserModel.getByEmail (jsTrim (jsToLower e)) users = some u →
          u.role ≠ "admin") →
        postLogin (some e) (some pw) cmp users = .invalidCredentials) := by
  have key : ∀ pw : String,
      postLogin (some "admin@youngwealth.com") (some pw) cmp initialUsers =
        if !(pw != "") then .missingCredentials
        else if cmp pw seedHash then .loggedIn (stripPassword adminUser)
        else .invalidCredentials := fun pw => rfl
  refine ⟨?_, rfl, ?_, ?_⟩
  · rw [key "admin123", hgood]
    simp
  · intro pw hpw hbad
    have ht : (pw != "") = true := by simp [hpw]
    rw [key pw, ht, hbad]
    simp
  · intro users e pw he hp hrole
    have ht : truthy (some e) = true := by simp [truthy, he]
    have hp2 : truthy (some pw) = true := by simp [truthy, hp]
    simp only [postLogin, ht, hp2]
    simp only [Bool.not_true, Bool.or_self, Bool.false_eq_true, if_false]
    cases hfind : UserModel.getByEmail (jsTrim (jsToLower ((some e).getD "")))
        users with
    | none => simp [hfind]
    | some u =>
      have hb : (u.role != "admin") = true := by
        simp [hrole u (by simpa using hfind)]
      simp [hfind, hb]

/-- Witness for C6 with a concrete compare oracle accepting exactly the
documented admin password against the seeded hash. -/
theorem adminLogin_spec_witness :
    postLogin (some "admin@youngwealth.com") (some "admin123")
        (fun p h => p == "admin123" && h == seedHash) initialUsers =
      .loggedIn (stripPassword adminUser)
    ∧ (stripPassword adminUser).role = "admin"
    ∧ postLogin (some "admin@youngwealth.com") (some "wrongpw")
        (fun p h => p == "admin123" && h == seedHash) initialUsers =
      .invalidCredentials
    ∧ postLogin (some "jane@college.com") (some "password123")
        (fun p h => p == "admin123" && h == seedHash) initialUsers =
      .invalidCredentials := by
  have h := adminLogin_spec (fun p h => p == "admin123" && h == seedHash)
    (by decide)
  exact ⟨h.1, h.2.1,
    h.2.2.1 "wrongpw" (by decide) (by decide),
    h.2.2.2 initialUsers "jane@college.com" "password123" (by decide)
      (by decide) (by decide)⟩

/-- C10: every user count in `GET /stats` counts only users with
`isActive` true (`UserModel.getAll` filters out soft-deleted records), so
soft-deleting an active user decrements `totalUsers` (when its role is
not admin) and the matching per-role count, even though the record is
still stored (the store length is unchanged). -/
theorem getStats_active_user_counts (courses : List Course)
    (users l₁ : List User) (u : User) (l₂ : List User) (now : Nat)
    (hsplit : users = l₁ ++ u :: l₂) (hfirst : ∀ v ∈ l₁, v.id ≠ u.id)
    (hact : u.isActive = true) :
    (getStats courses users).totalUsers =
      users.countP (fun v => v.isActive && v.role != "admin")
    ∧ (getStats courses users).schoolStudents =
        users.countP (fun v => v.isActive && v.role == "school-student")
    ∧ (getStats courses users).collegeStudents =
        users.countP (fun v => v.isActive && v.role == "college-student")
    ∧ (getStats courses users).employees =
        users.countP (fun v => v.isActive && v.role == "employee")
    ∧ ((UserModel.delete u.id now users).2).length = users.length
    ∧ (u.role ≠ "admin" →
        (getStats courses ((UserModel.delete u.id now users).2)).totalUsers
          + 1 = (getStats courses users).totalUsers)
    ∧ (u.role = "school-student" →
        (getStats courses
            ((UserModel.delete u.id now users).2)).schoolStudents
          + 1 = (getStats courses users).schoolStudents)
    ∧ (u.role = "college-student" →
        (getStats courses
            ((UserModel.delete u.id now users).2)).collegeStudents
          + 1 = (getStats courses users).collegeStudents)
    ∧ (u.role = "employee" →
        (getStats courses ((UserModel.delete u.id now users).2)).employees
          + 1 = (getStats courses users).employees) := by
  subst hsplit
  have hdel : (UserModel.delete u.id now (l₁ ++ u :: l₂)).2 =
      l₁ ++ { u with isActive := false, updatedAt := now } :: l₂ := by
    rw [userDelete_found u.id now u l₂ rfl l₁ hfirst]
  refine ⟨stats_totalUsers courses _, stats_schoolStudents courses _,
    stats_collegeStudents courses _, stats_employees courses _,
    userDelete_length u.id now _, ?_, ?_, ?_, ?_⟩
  · intro hrole
    simp only [stats_totalUsers, hdel]
    exact countP_replace_drop _ l₁ l₂ u _ (by simp [hact, hrole]) (by simp)
  · intro hrole
    simp only [stats_schoolStudents, hdel]
    exact countP_replace_drop _ l₁ l₂ u _ (by simp [hact, hrole]) (by simp)
  · intro hrole
    simp only [stats_collegeStudents, hdel]
    exact countP_replace_drop _ l₁ l₂ u _ (by simp [hact, hrole]) (by simp)
  · intro hrole
    simp only [stats_employees, hdel]
    exact countP_replace_drop _ l₁ l₂ u _ (by simp [hact, hrole]) (by simp)

/-- Witness for C10: soft-deleting seeded active school student John Doe
drops schoolStudents from 1 to 0 and totalUsers from 2 to 1 while the
store keeps all three records. -/
theorem getStats_active_user_counts_witness :
    (getStats [] initialUsers).schoolStudents = 1
    ∧ (getStats [] ((UserModel.delete "1" 4 initialUsers).2)).schoolStudents
        + 1 = (getStats [] initialUsers).schoolStudents
    ∧ (getStats [] ((UserModel.delete "1" 4 initialUsers).2)).totalUsers
        + 1 = (getStats [] initialUsers).totalUsers
    ∧ ((UserModel.delete "1" 4 initialUsers).2).length =
        initialUsers.length := by
  have h := getStats_active_user_counts [] initialUsers [] johnUser
    [janeUser, adminUser] 4 rfl (by simp) rfl
  exact ⟨by decide, h.2.2.2.2.2.2.1 rfl, h.2.2.2.2.2.1 (by decide),
    h.2.2.2.2.1⟩
